import Mathlib

/-!
Verification development for the `bun-logs` asynchronous batching log sink.

The producer side (Facade, `src/index.ts` `createLogger`) and the consumer
side (Dispatcher, `src/worker.ts`) are embedded shallowly:

* mutable module state becomes explicit `FState` / `WState` records;
* `postMessage` calls become lists of messages returned by each operation;
* the worker's `self.onmessage` handler and its helpers `flushNow` and
  `schedule` become pure functions on `WState`;
* a run of the worker is the left-to-right processing of a list of events
  (received messages and timer firings), each processed atomically, which
  mirrors the single-threaded worker turn;
* the outcome of a `Bun.write` / `FileSink.write` call is an oracle boolean
  passed to the drain, since the sink itself is external I/O.

Each drained batch is recorded as a `Chunk` keeping the structure of the
source's `lines` array: the optional synthetic drop-warning entry that
`flushNow` unshifts, followed by the entries claimed from the buffer;
`Chunk.lines` reproduces the source's `lines` value exactly, and the
rendered text of the chunk is obtained by mapping `formatLog` over it.
-/

namespace BunLogs

/-- Log severity, `type LogLevel` in `src/index.ts`. -/
inductive Level
  | debug
  | info
  | warn
  | error
deriving DecidableEq, Repr

/-- The `LEVEL` numeric table of `src/index.ts`. -/
def levelNum : Level → Nat
  | .debug => 10
  | .info => 20
  | .warn => 30
  | .error => 40

/-- The wire name of a level: the string the Facade puts in the
`level` field of an entry message. -/
def levelName : Level → String
  | .debug => "debug"
  | .info => "info"
  | .warn => "warn"
  | .error => "error"

/-- A metadata value. In the source `meta` is an arbitrary JSON-serializable
record; the claims only ever inspect numeric and string values, so the
embedding restricts metadata values to those two shapes. -/
inductive MetaVal
  | nat (n : Nat)
  | str (s : String)
deriving DecidableEq, Repr

/-- A metadata record: ordered key/value pairs, as serialized by
`JSON.stringify`. -/
abbrev Meta := List (String × MetaVal)

/-- One log record, the element type of the worker's queue `q` in
`src/worker.ts` (`{ t, level, msg, meta }`). -/
structure Entry where
  t : Nat
  level : String
  msg : String
  meta : Option Meta
deriving DecidableEq, Repr

/-- Output format, `type OutputFormat` in `src/worker.ts`. -/
inductive Format
  | json
  | pretty
  | raw
deriving DecidableEq, Repr

/-- Output destination, `type Destination` in `src/worker.ts`. -/
inductive Dest
  | stdout
  | stderr
  | file (path : String)
  | fd (n : Nat)
deriving DecidableEq, Repr

/-- `DEFAULT_COLORS` of `src/worker.ts`. -/
def DEFAULT_COLORS : List (String × String) :=
  [("debug", "\x1b[36m"), ("info", "\x1b[32m"), ("warn", "\x1b[33m"),
   ("error", "\x1b[31m"), ("reset", "\x1b[0m")]

/-- Lookup in a color table; `COLORS[entry.level] ?? ""` in `formatLog`. -/
def lookupColor (colors : List (String × String)) (key : String) : String :=
  ((colors.find? (fun p => p.1 = key)).map Prod.snd).getD ""

/-- Merge custom colors over the defaults: the object spread
`{ ...DEFAULT_COLORS, ...d.colors }` in the worker's init handler. -/
def mergeColors (custom : List (String × String)) : List (String × String) :=
  DEFAULT_COLORS.map (fun p => ((custom.find? (fun c => c.1 = p.1)).getD p))

/-- Serialization of one metadata value, as `JSON.stringify` renders it. -/
def metaValJson : MetaVal → String
  | .nat n => toString n
  | .str s => "\"" ++ s ++ "\""

/-- Serialization of the key/value pairs of a metadata record. -/
def metaPairsJson : Meta → String
  | [] => ""
  | [(k, v)] => "\"" ++ k ++ "\":" ++ metaValJson v
  | (k, v) :: rest => "\"" ++ k ++ "\":" ++ metaValJson v ++ "," ++ metaPairsJson rest

/-- `JSON.stringify` of a metadata record. -/
def metaJson (m : Meta) : String := "\x7b" ++ metaPairsJson m ++ "\x7d"

/-- `JSON.stringify(entry)`: the `json` branch of `formatLog`. A `meta`
field holding `undefined` is omitted, as `JSON.stringify` drops it. -/
def entryJson (e : Entry) : String :=
  "\x7b\"t\":" ++ toString e.t ++ ",\"level\":\"" ++ e.level ++ "\",\"msg\":\""
    ++ e.msg ++ "\""
    ++ (match e.meta with
        | none => ""
        | some m => ",\"meta\":" ++ metaJson m)
    ++ "\x7d"

/-- `String.prototype.padEnd(5)` applied to a level name. -/
def padEnd5 (s : String) : String :=
  s ++ String.mk (List.replicate (5 - s.length) ' ')

/-- Stand-in for `new Date(t).toISOString()`: timestamp rendering is
external date formatting (spec section 1 places rendering details outside
the core); the embedding keeps it a function of the millisecond value. -/
def isoString (t : Nat) : String := toString t

/-- `formatLog` of `src/worker.ts`: render one entry to one line, given the
configured format, the TTY flag and the color table. -/
def formatLog (fmt : Format) (tty : Bool) (colors : List (String × String))
    (e : Entry) : String :=
  match fmt with
  | .json => entryJson e
  | .raw => e.msg
  | .pretty =>
    let ts := isoString e.t
    let color := lookupColor colors e.level
    let reset := lookupColor colors "reset"
    let lvl := padEnd5 e.level.toUpper
    let metaStr :=
      match e.meta with
      | some m => " " ++ metaJson m
      | none => ""
    if tty then color ++ lvl ++ reset ++ " [" ++ ts ++ "] " ++ e.msg ++ metaStr
    else lvl ++ " [" ++ ts ++ "] " ++ e.msg ++ metaStr

/-- `lines.join("\n")`. -/
def joinNL : List String → String
  | [] => ""
  | [x] => x
  | x :: y :: rest => x ++ "\n" ++ joinNL (y :: rest)

/-- The chunk string built by `flushNow`:
`lines.map(formatLog).join("\n") + "\n"`. -/
def renderChunk (fmt : Format) (tty : Bool) (colors : List (String × String))
    (lines : List Entry) : String :=
  joinNL (lines.map (formatLog fmt tty colors)) ++ "\n"

/-- The synthetic drop-warning entry `flushNow` unshifts when the worker's
drop counter is nonzero (level `warn`, message describing the count, meta
carrying the numeric count). -/
def warnEntry (now dropCount : Nat) : Entry :=
  { t := now
    level := "warn"
    msg := "Queue overflow: " ++ toString dropCount ++ " logs dropped"
    meta := some [("dropped", MetaVal.nat dropCount)] }

/-- One drained batch, keeping the structure of the `lines` array of
`flushNow`: `warn` is the synthetic entry unshifted at the front (if any)
and `batch` is the content claimed from the buffer by `q.splice(0, count)`,
in arrival order. -/
structure Chunk where
  warn : Option Entry
  batch : List Entry
deriving DecidableEq, Repr

/-- The `lines` array of `flushNow` after the optional unshift. -/
def Chunk.lines (c : Chunk) : List Entry := c.warn.toList ++ c.batch

/-- Dispatcher state: the worker module's mutable top-level bindings
(`BATCH`, `INTERVAL`, `FORMAT`, `DEST`, `IS_TTY`, `COLORS`, `q`, `timer`,
`dropped`) with their initial values as defaults. -/
structure WState where
  BATCH : Nat := 64
  INTERVAL : Nat := 200
  FORMAT : Format := .json
  DEST : Dest := .stdout
  IS_TTY : Bool := false
  COLORS : List (String × String) := DEFAULT_COLORS
  q : List Entry := []
  timerArmed : Bool := false
  dropped : Nat := 0
deriving DecidableEq, Repr

/-- The worker's state at module load, before any message. -/
def initWState : WState := {}

/-- Message from Facade to Dispatcher, the producer-to-consumer half of the
control protocol: `__init`, a plain entry, `__flush` with its correlation
token, `__dropped` with a count. -/
inductive WMsg
  | init (batchSize flushInterval : Nat) (format : Format) (dest : Dest)
      (isTTY : Bool) (colors : Option (List (String × String)))
  | entry (e : Entry)
  | flushReq (tok : Nat)
  | droppedMsg (n : Nat)
deriving DecidableEq, Repr

/-- Message from Dispatcher to Facade: `__processed`, `__error`,
`__flushed` with the echoed token. -/
inductive WOut
  | processed (n : Nat)
  | error (s : String)
  | flushed (tok : Nat)
deriving DecidableEq, Repr

/-- Result of one worker step or run: the new state, the messages posted
back to the Facade, and the chunks whose write was attempted. -/
structure WRun where
  st : WState
  outs : List WOut
  chunks : List Chunk
deriving DecidableEq, Repr

/-- `flushNow` of `src/worker.ts`. `now` is the `Date.now()` oracle used for
the synthetic warning's timestamp and `ok` the outcome of the sink write.
The timer is cancelled, an empty buffer is a no-op, otherwise the whole
buffer is claimed (`q.splice(0, count)`), the drop-warning is prepended when
`dropped > 0` and the counter reset (resetting an already-zero counter is
the identity, so the reset is written unconditionally), and either
`__processed(count)` (with `count` taken before the unshift) or `__error`
is posted. On failure with a `stdout` destination the source retries the
same chunk on stderr; the chunk content is identical, so the embedding
records the attempted chunk once. -/
def flushNow (now : Nat) (ok : Bool) (s : WState) : WRun :=
  if s.q = [] then ⟨{ s with timerArmed := false }, [], []⟩
  else
    let count := s.q.length
    let warnOpt : Option Entry :=
      if 0 < s.dropped then some (warnEntry now s.dropped) else none
    let c : Chunk := { warn := warnOpt, batch := s.q }
    ⟨{ s with timerArmed := false, q := [], dropped := 0 },
     [if ok then WOut.processed count else WOut.error "write failed"],
     [c]⟩

/-- `schedule` of `src/worker.ts`: arm the flush timer unless already
armed. -/
def schedule (s : WState) : WState :=
  if s.timerArmed then s else { s with timerArmed := true }

/-- The worker's `self.onmessage` handler, one message processed
atomically. -/
def onmessage (now : Nat) (ok : Bool) (s : WState) (m : WMsg) : WRun :=
  match m with
  | .init b i f d tty colors =>
    ⟨{ s with
        BATCH := b, INTERVAL := i, FORMAT := f, DEST := d, IS_TTY := tty,
        COLORS := (match colors with | some cs => mergeColors cs | none => s.COLORS) },
     [], []⟩
  | .flushReq tok =>
    let r := flushNow now ok s
    ⟨r.st, r.outs ++ [WOut.flushed tok], r.chunks⟩
  | .droppedMsg n => ⟨{ s with dropped := s.dropped + n }, [], []⟩
  | .entry e =>
    let s1 := { s with q := s.q ++ [e] }
    if s.BATCH ≤ s1.q.length then flushNow now ok s1
    else ⟨schedule s1, [], []⟩

/-- An event observed by the worker: a received message, or the flush timer
firing (`setTimeout` callback in `schedule`). -/
inductive WEvent
  | recv (m : WMsg) (now : Nat) (ok : Bool)
  | timerFire (now : Nat) (ok : Bool)
deriving DecidableEq, Repr

/-- One worker step. A timer firing is only observable when the timer is
armed; its callback clears the timer, ignores an empty queue and otherwise
drains. -/
def wstep (s : WState) : WEvent → WRun
  | .recv m now ok => onmessage now ok s m
  | .timerFire now ok =>
    if s.timerArmed then
      let s0 := { s with timerArmed := false }
      if s0.q = [] then ⟨s0, [], []⟩ else flushNow now ok s0
    else ⟨s, [], []⟩

/-- Process a list of events left to right, accumulating posted messages and
attempted chunks. -/
def runWorker (s : WState) : List WEvent → WRun
  | [] => ⟨s, [], []⟩
  | ev :: evs =>
    let r1 := wstep s ev
    let r2 := runWorker r1.st evs
    ⟨r2.st, r1.outs ++ r2.outs, r1.chunks ++ r2.chunks⟩

/-- The entries carried by one event (an `entry` message carries one,
everything else none). -/
def evEntries : WEvent → List Entry
  | .recv (.entry e) _ _ => [e]
  | _ => []

/-- The entries delivered to the worker by a list of events, in order. -/
def entriesOf (evs : List WEvent) : List Entry := (evs.map evEntries).flatten

/-- Facade state: the mutable closure variables of `createLogger` in
`src/index.ts` (`min`, `maxQueue`, `queueSize`, `dropped`). `queueSize` is
an integer because the source clamps it with `Math.max(0, ...)`. -/
structure FState where
  minLevel : Nat
  maxQueue : Nat
  queueSize : Int
  dropped : Nat
deriving DecidableEq, Repr

/-- `post` of `src/index.ts`: the producer-side gate. Returns the new
facade state, the messages posted to the worker and the `onError` callback
invocations (by their message strings). A level below the minimum is a
silent no-op; with `queueSize >= maxQueue` the entry is dropped, the drop
counter incremented and the callback fired on drop 1 and every 100th drop;
otherwise `queueSize` increments and the entry is sent. -/
def post (now : Nat) (s : FState) (lvl : Level) (msg : String)
    (meta : Option Meta) : FState × List WMsg × List String :=
  if levelNum lvl < s.minLevel then (s, [], [])
  else if (s.maxQueue : Int) ≤ s.queueSize then
    let d := s.dropped + 1
    ({ s with dropped := d }, [],
     if d = 1 ∨ d % 100 = 0
     then ["Queue overflow: dropped " ++ toString d ++ " logs"] else [])
  else
    ({ s with queueSize := s.queueSize + 1 },
     [WMsg.entry { t := now, level := levelName lvl, msg := msg, meta := meta }],
     [])

/-- The messages `flush` of `src/index.ts` posts to the worker: only the
`__flush` control message carrying the fresh correlation token. (Notably it
posts no `__dropped` message and leaves the facade's drop counter
untouched.) -/
def flushMsgs (tok : Nat) : List WMsg := [WMsg.flushReq tok]

/-- The `__processed` branch of the facade's `worker.onmessage`:
`queueSize = Math.max(0, queueSize - e.data.__processed)`. -/
def handleProcessed (f : FState) (n : Nat) : FState :=
  { f with queueSize := max 0 (f.queueSize - (n : Int)) }

/-- The whole logger: facade plus worker, connected by the in-order
channel, with delivery modelled synchronously (every posted message is
processed by the worker before the producer runs again; the claims settled
on this model concern message contents and order, which the FIFO channel
preserves). `alive` is whether `worker.terminate()` has not yet been
called; `outs`, `chunks`, `errors` accumulate the worker's replies, the
attempted writes and the facade `onError` invocations; `terminations`
counts `worker.terminate()` calls. -/
structure Sys where
  fac : FState
  wrk : WState
  alive : Bool
  outs : List WOut
  chunks : List Chunk
  errors : List String
  terminations : Nat
deriving DecidableEq, Repr

/-- Deliver one message to the worker and feed its replies back through the
facade's `worker.onmessage` (`__processed` decrements the queue size,
`__error` invokes `onError`). A message posted to a terminated worker is
silently discarded, per Worker semantics. -/
def deliver (now : Nat) (ok : Bool) (sys : Sys) (m : WMsg) : Sys :=
  if sys.alive then
    let r := onmessage now ok sys.wrk m
    { sys with
        wrk := r.st
        fac := r.outs.foldl
          (fun f o => match o with
            | WOut.processed n => handleProcessed f n
            | _ => f) sys.fac
        outs := sys.outs ++ r.outs
        chunks := sys.chunks ++ r.chunks
        errors := sys.errors ++ r.outs.filterMap
          (fun o => match o with
            | WOut.error e => some e
            | _ => none) }
  else sys

/-- A `logger.debug/info/warn/error` call on the whole system: run the
facade's `post`, record its callback invocations, deliver the messages it
produced. -/
def sysPost (now : Nat) (sys : Sys) (lvl : Level) (msg : String)
    (meta : Option Meta) : Sys :=
  let r := post now sys.fac lvl msg meta
  r.2.1.foldl (deliver now true)
    { sys with fac := r.1, errors := sys.errors ++ r.2.2 }

/-- A `logger.flush()` call: post the `__flush` control message; the
returned boolean is whether the promise resolved, i.e. whether the matching
`__flushed` acknowledgement was received. -/
def sysFlush (now tok : Nat) (sys : Sys) : Sys × Bool :=
  let sys1 := flushMsgs tok |>.foldl (deliver now true) sys
  (sys1, WOut.flushed tok ∈ sys1.outs)

/-- A `logger.close()` call: `await flush(); worker.terminate()`. The
`terminate` line runs only if the awaited flush resolved; the returned
boolean is whether `close` itself completed. -/
def sysClose (now tok : Nat) (sys : Sys) : Sys × Bool :=
  let r := sysFlush now tok sys
  if r.2 then
    ({ r.1 with alive := false, terminations := r.1.terminations + 1 }, true)
  else (r.1, false)

/-- `createLogger`: resolve the options, start the worker at its module
state, deliver the `__init` message. -/
def mkSys (minL maxQ batchSize interval : Nat) (fmt : Format) : Sys :=
  deliver 0 true
    { fac := { minLevel := minL, maxQueue := maxQ, queueSize := 0, dropped := 0 }
      wrk := initWState
      alive := true
      outs := []
      chunks := []
      errors := []
      terminations := 0 }
    (WMsg.init batchSize interval fmt Dest.stdout false none)

/-- Fold a list of `post` calls on the facade alone, accumulating the
messages sent and the callback invocations (used for the pure-backpressure
scenarios, where no drain happens). -/
def postsFold (now : Nat) (s : FState) :
    List (Level × String) → FState × List WMsg × List String
  | [] => (s, [], [])
  | (l, m) :: rest =>
    let r1 := post now s l m none
    let r2 := postsFold now r1.1 rest
    (r2.1, r1.2.1 ++ r2.2.1, r1.2.2 ++ r2.2.2)

/-- The spec's overload scenario: `maxQueueSize = 5`, level `info`, 20
`info` calls, no drain in between (facade state only). -/
def sc20 : FState × List WMsg × List String :=
  postsFold 0 { minLevel := 20, maxQueue := 5, queueSize := 0, dropped := 0 }
    (List.replicate 20 (Level.info, "log"))

/-- The spec's drop-warning scenario, system side: a logger with
`maxQueueSize = 3` (default batch size and interval, `json` format). -/
def c3sys0 : Sys := mkSys 20 3 64 200 Format.json

/-- Six `info` posts into `c3sys0`: three accepted, three dropped. -/
def c3after : Sys :=
  ["m1", "m2", "m3", "m4", "m5", "m6"].foldl
    (fun sy m => sysPost 0 sy Level.info m none) c3sys0

/-- The flush that follows the three drops, with correlation token 42. -/
def c3final : Sys × Bool := sysFlush 0 42 c3after

/-- A fresh logger with default options, for the double-close scenario. -/
def c10sys : Sys := mkSys 20 1024 64 200 Format.json

/-- The first `close()` call, flush token 1. -/
def c10first : Sys × Bool := sysClose 0 1 c10sys

/-- The second `close()` call, flush token 2, issued after the first. -/
def c10second : Sys × Bool := sysClose 0 2 c10first.1

/-- A worker state with one buffered entry and two counted drops, used as
a concrete drain input. -/
def wEx : WState :=
  { initWState with q := [{ t := 1, level := "info", msg := "a", meta := none }], dropped := 2 }

/-- A facade state already at capacity (`maxQueue = 0`), used as a concrete
backpressure input. -/
def fEx : FState := { minLevel := 20, maxQueue := 0, queueSize := 0, dropped := 0 }

/-- A drain leaves the worker's buffer empty: `q.splice(0, count)` removes
every element, and the empty-buffer branch leaves the (empty) buffer as
is. -/
theorem flushNow_st_q (now : Nat) (ok : Bool) (s : WState) :
    (flushNow now ok s).st.q = [] := by
  unfold flushNow
  split <;> simp_all

/-- The batches claimed by a drain are exactly the buffer content. -/
theorem flushNow_batches (now : Nat) (ok : Bool) (s : WState) :
    ((flushNow now ok s).chunks.map Chunk.batch).flatten = s.q := by
  unfold flushNow
  split <;> simp_all

/-- Arming the timer is the identity on every other field. -/
theorem schedule_eq (s : WState) : schedule s = { s with timerArmed := true } := by
  unfold schedule
  split
  · cases s
    simp_all
  · rfl

/-- One worker step conserves entries: the batches it writes followed by
the remaining buffer equal the previous buffer followed by the entries the
event delivered. -/
theorem wstep_batches (s : WState) (ev : WEvent) :
    ((wstep s ev).chunks.map Chunk.batch).flatten ++ (wstep s ev).st.q
      = s.q ++ evEntries ev := by
  cases ev with
  | recv m now ok =>
    cases m with
    | init b i f d tty colors => simp [wstep, onmessage, evEntries]
    | flushReq tok =>
      simp [wstep, onmessage, evEntries, flushNow_batches, flushNow_st_q]
    | droppedMsg n => simp [wstep, onmessage, evEntries]
    | entry e =>
      simp only [wstep, onmessage, evEntries]
      split
      · rw [flushNow_batches, flushNow_st_q]
        simp
      · simp [schedule_eq]
  | timerFire now ok =>
    simp only [wstep]
    split
    · split
      · simp_all [evEntries]
      · simp [evEntries, flushNow_batches, flushNow_st_q]
    · simp [evEntries]

/-- `entriesOf` distributes over cons. -/
theorem entriesOf_cons (ev : WEvent) (evs : List WEvent) :
    entriesOf (ev :: evs) = evEntries ev ++ entriesOf evs := by
  simp [entriesOf]

/-- Entry conservation along a whole worker run: written batches followed
by the final buffer equal the initial buffer followed by all delivered
entries, in order. -/
theorem runWorker_batches (evs : List WEvent) : ∀ s : WState,
    ((runWorker s evs).chunks.map Chunk.batch).flatten ++ (runWorker s evs).st.q
      = s.q ++ entriesOf evs := by
  induction evs with
  | nil => intro s; simp [runWorker, entriesOf]
  | cons ev evs ih =>
    intro s
    have h1 := wstep_batches s ev
    have h2 := ih (wstep s ev).st
    simp only [runWorker, List.map_append, List.flatten_append]
    rw [List.append_assoc, h2, ← List.append_assoc, h1, List.append_assoc,
      entriesOf_cons]

/-- A worker run splits along an append of event lists. -/
theorem runWorker_append (evs evs' : List WEvent) : ∀ s : WState,
    runWorker s (evs ++ evs')
      = ⟨(runWorker (runWorker s evs).st evs').st,
         (runWorker s evs).outs ++ (runWorker (runWorker s evs).st evs').outs,
         (runWorker s evs).chunks ++ (runWorker (runWorker s evs).st evs').chunks⟩ := by
  induction evs with
  | nil => intro s; simp [runWorker]
  | cons ev evs ih => intro s; simp [runWorker, ih]

/-- Claim C1: along any worker run the relative order of entries is
preserved from arrival through the buffer into the written chunks — the
batches written so far, concatenated, followed by what is still buffered,
are exactly the delivered entries in arrival order; and a drain of a
nonempty buffer writes one chunk whose batch is the buffer in arrival
order, with the synthetic drop-warning placed at the front exactly when
the drop count is nonzero at that drain (it is reset by the drain, so the
first batch drained after the count became nonzero carries it). -/
theorem order_preserved_through_pipeline :
    (∀ evs : List WEvent,
      ((runWorker initWState evs).chunks.map Chunk.batch).flatten
          ++ (runWorker initWState evs).st.q
        = entriesOf evs) ∧
    (∀ (now : Nat) (ok : Bool) (s : WState), s.q ≠ [] →
      (flushNow now ok s).chunks
        = [{ warn := if 0 < s.dropped then some (warnEntry now s.dropped) else none,
             batch := s.q }]) := by
  constructor
  · intro evs
    simpa [initWState] using runWorker_batches evs initWState
  · intro now ok s h
    unfold flushNow
    simp [h]

/-- Witness for C1 at a concrete drain: a buffer with one entry and two
counted drops yields one chunk with the warning in front of that entry. -/
theorem order_preserved_through_pipeline_witness :
    wEx.q ≠ [] ∧
    (flushNow 7 true wEx).chunks
      = [{ warn := if 0 < wEx.dropped then some (warnEntry 7 wEx.dropped) else none,
           batch := wEx.q }] :=
  ⟨by decide, order_preserved_through_pipeline.2 7 true wEx (by decide)⟩

/-- Claim C2: when a worker run ends with a `__flush(token)` request, the
buffer is empty afterwards, every entry delivered before the request is in
a written batch (in order), and the acknowledgement — carrying the same
token — is the last message posted, so the facade promise keyed on that
token can only resolve after all those entries were passed to a write. -/
theorem flush_resolves_after_prior_entries_written
    (evs : List WEvent) (tok now : Nat) (ok : Bool) :
    (runWorker initWState (evs ++ [WEvent.recv (WMsg.flushReq tok) now ok])).st.q
        = [] ∧
    ((runWorker initWState
        (evs ++ [WEvent.recv (WMsg.flushReq tok) now ok])).chunks.map
          Chunk.batch).flatten
      = entriesOf evs ∧
    ∃ pre, (runWorker initWState
        (evs ++ [WEvent.recv (WMsg.flushReq tok) now ok])).outs
      = pre ++ [WOut.flushed tok] := by
  rw [runWorker_append]
  have hrun := runWorker_batches evs initWState
  refine ⟨?_, ?_, ?_⟩
  · simp [runWorker, wstep, onmessage, flushNow_st_q]
  · simp only [runWorker, wstep, onmessage, List.append_nil, List.map_append,
      List.flatten_append]
    rw [flushNow_batches]
    simpa [initWState] using hrun
  · refine ⟨(runWorker initWState evs).outs
       ++ (flushNow now ok (runWorker initWState evs).st).outs, ?_⟩
    simp [runWorker, wstep, onmessage]

/-- Claim C3 (code bug): after three backpressure drops the facade's drop
counter is 3, yet the flush that follows transmits nothing — the written
batch has no synthetic warning (`warn = none`), only the three buffered
entries, and the facade counter is still 3 after the flush while the
worker's own counter stayed 0. The worker-side conversion does work when
its counter is fed directly (last conjunct), but the facade never sends the
`__dropped` message that would feed it. -/
theorem drop_warning_never_written :
    c3after.fac.dropped = 3 ∧
    c3final.2 = true ∧
    c3final.1.chunks.map Chunk.warn = [none] ∧
    c3final.1.chunks.map Chunk.batch
      = [[{ t := 0, level := "info", msg := "m1", meta := none },
          { t := 0, level := "info", msg := "m2", meta := none },
          { t := 0, level := "info", msg := "m3", meta := none }]] ∧
    c3final.1.fac.dropped = 3 ∧
    c3final.1.wrk.dropped = 0 ∧
    (flushNow 5 true
        { initWState with
            q := [{ t := 1, level := "info", msg := "a", meta := none }]
            dropped := 3 }).chunks.map Chunk.warn
      = [some (warnEntry 5 3)] := by
  decide

/-- Claim C4: a `post` at or above the minimum level against a full queue
leaves `queueSize` unchanged, sends nothing, increments the drop counter,
and invokes the error callback exactly when the new count is 1 or a
multiple of 100; and in the concrete overload scenario (maxQueueSize 5,
20 posts, no drain) 15 drops occur, exactly one callback fires, and the 5
accepted entries were the only messages sent. -/
theorem backpressure_drop_policy :
    (∀ (now : Nat) (s : FState) (lvl : Level) (msg : String) (meta : Option Meta),
      s.minLevel ≤ levelNum lvl → (s.maxQueue : Int) ≤ s.queueSize →
      post now s lvl msg meta
        = ({ s with dropped := s.dropped + 1 }, [],
           if s.dropped + 1 = 1 ∨ (s.dropped + 1) % 100 = 0
           then ["Queue overflow: dropped " ++ toString (s.dropped + 1) ++ " logs"]
           else [])) ∧
    sc20.1.dropped = 15 ∧
    sc20.2.2.length = 1 ∧
    sc20.1.queueSize = 5 ∧
    sc20.2.1.length = 5 := by
  refine ⟨?_, by decide, by decide, by decide, by decide⟩
  intro now s lvl msg meta h1 h2
  unfold post
  rw [if_neg (by omega), if_pos h2]

/-- Witness for C4 at a full queue: the very first drop fires the
callback. -/
theorem backpressure_drop_policy_witness :
    fEx.minLevel ≤ levelNum Level.info ∧
    post 0 fEx Level.info "m" none
      = ({ fEx with dropped := fEx.dropped + 1 }, [],
         if fEx.dropped + 1 = 1 ∨ (fEx.dropped + 1) % 100 = 0
         then ["Queue overflow: dropped " ++ toString (fEx.dropped + 1) ++ " logs"]
         else []) :=
  ⟨by decide, backpressure_drop_policy.1 0 fEx Level.info "m" none (by decide) (by decide)⟩

/-- Claim C5: a `post` strictly below the minimum level is a silent no-op:
the facade state (queue size and drop counter included) is unchanged, no
message goes to the worker, and no callback fires — so the entry can never
appear in any written output. -/
theorem below_min_level_noop :
    ∀ (now : Nat) (s : FState) (lvl : Level) (msg : String) (meta : Option Meta),
      levelNum lvl < s.minLevel → post now s lvl msg meta = (s, [], []) := by
  intro now s lvl msg meta h
  unfold post
  rw [if_pos h]

/-- Witness for C5: a `debug` post on an `info`-level facade does
nothing. -/
theorem below_min_level_noop_witness :
    levelNum Level.debug < fEx.minLevel ∧
    post 3 fEx Level.debug "quiet" none = (fEx, [], []) :=
  ⟨by decide, below_min_level_noop 3 fEx Level.debug "quiet" none (by decide)⟩

/-- Claim C6: a drain is atomic with respect to the buffer: it always
leaves the live buffer empty, claims nothing when the buffer is empty, and
otherwise claims the entire buffer as the single written batch — so an
entry processed after the drain joins the fresh (empty) buffer, i.e. the
next batch. -/
theorem drain_atomicity :
    ∀ (now : Nat) (ok : Bool) (s : WState),
      (flushNow now ok s).st.q = [] ∧
      (s.q = [] → (flushNow now ok s).chunks = []) ∧
      (s.q ≠ [] → (flushNow now ok s).chunks.map Chunk.batch = [s.q]) := by
  intro now ok s
  refine ⟨flushNow_st_q now ok s, ?_, ?_⟩ <;>
    · intro h
      unfold flushNow
      simp [h]

/-- Witness for C6 at both concrete cases: empty buffer claims nothing,
nonempty buffer is claimed whole. -/
theorem drain_atomicity_witness :
    (flushNow 0 true initWState).chunks = [] ∧
    (wEx.q ≠ [] ∧ (flushNow 0 true wEx).chunks.map Chunk.batch = [wEx.q]) :=
  ⟨(drain_atomicity 0 true initWState).2.1 rfl,
   by decide, (drain_atomicity 0 true wEx).2.2 (by decide)⟩

/-- Claim C7: processing `__flush(token)` posts the `__flushed(token)`
acknowledgement after whatever the drain posted, whether the write
succeeded or failed (`ok` is universally quantified), and on an empty
buffer the drain is a no-op — no chunk, no `__processed` — yet the token is
still answered immediately. -/
theorem flush_ack_after_drain :
    ∀ (now : Nat) (ok : Bool) (s : WState) (tok : Nat),
      (onmessage now ok s (WMsg.flushReq tok)).outs
        = (flushNow now ok s).outs ++ [WOut.flushed tok] ∧
      (onmessage now ok s (WMsg.flushReq tok)).chunks = (flushNow now ok s).chunks ∧
      (s.q = [] →
        onmessage now ok s (WMsg.flushReq tok)
          = ⟨{ s with timerArmed := false }, [WOut.flushed tok], []⟩) := by
  intro now ok s tok
  refine ⟨rfl, rfl, ?_⟩
  intro h
  simp [onmessage, flushNow, h]

/-- Witness for C7 on an empty buffer, failed-write oracle: the
acknowledgement is still the only reply. -/
theorem flush_ack_after_drain_witness :
    initWState.q = [] ∧
    onmessage 0 false initWState (WMsg.flushReq 9)
      = ⟨{ initWState with timerArmed := false }, [WOut.flushed 9], []⟩ :=
  ⟨rfl, (flush_ack_after_drain 0 false initWState 9).2.2 rfl⟩

/-- Claim C8: a successful drain of a nonempty buffer reports
`__processed(n)` with `n` the number of entries claimed from the buffer —
the batch, excluding any prepended synthetic warning — and on receipt the
facade sets `queueSize = max 0 (queueSize - n)`, which never goes
negative. -/
theorem processed_count_and_clamp :
    ∀ (now : Nat) (ok : Bool) (s : WState), s.q ≠ [] →
      ((flushNow now true s).outs = [WOut.processed s.q.length] ∧
       (flushNow now ok s).chunks.map Chunk.batch = [s.q]) ∧
      (∀ (f : FState) (n : Nat),
        (handleProcessed f n).queueSize = max 0 (f.queueSize - (n : Int)) ∧
        0 ≤ (handleProcessed f n).queueSize) := by
  intro now ok s h
  constructor
  · constructor <;>
      · unfold flushNow
        simp [h]
  · intro f n
    exact ⟨rfl, le_max_left 0 _⟩

/-- Witness for C8: draining the one-entry buffer `wEx` (which also
carries two drops, hence a prepended warning) reports `__processed 1`, and
the clamp holds at a concrete over-acknowledgement. -/
theorem processed_count_and_clamp_witness :
    wEx.q ≠ [] ∧
    (flushNow 0 true wEx).outs = [WOut.processed wEx.q.length] ∧
    (handleProcessed fEx 7).queueSize = max 0 (fEx.queueSize - (7 : Int)) :=
  ⟨by decide, ((processed_count_and_clamp 0 true wEx (by decide)).1).1,
   ((processed_count_and_clamp 0 true wEx (by decide)).2 fEx 7).1⟩

/-- Claim C9: appending an entry that brings the buffer to the batch size
(or beyond) triggers an immediate drain that empties the buffer, without
the timer; a smaller buffer just appends the entry and arms the flush
timer (arming is idempotent: the result state simply has the timer armed);
and a firing of the armed timer over a nonempty buffer performs the same
drain as `flushNow`, so a small batch drains once the interval elapses. -/
theorem batch_size_and_timer_triggers :
    ∀ (now : Nat) (ok : Bool) (s : WState) (e : Entry),
      (s.BATCH ≤ s.q.length + 1 →
        onmessage now ok s (WMsg.entry e) = flushNow now ok { s with q := s.q ++ [e] } ∧
        (onmessage now ok s (WMsg.entry e)).st.q = []) ∧
      (s.q.length + 1 < s.BATCH →
        onmessage now ok s (WMsg.entry e)
          = ⟨{ s with q := s.q ++ [e], timerArmed := true }, [], []⟩) ∧
      (s.timerArmed = true → s.q ≠ [] →
        wstep s (WEvent.timerFire now ok)
          = flushNow now ok { s with timerArmed := false }) := by
  intro now ok s e
  refine ⟨?_, ?_, ?_⟩
  · intro h
    have heq : onmessage now ok s (WMsg.entry e)
        = flushNow now ok { s with q := s.q ++ [e] } := by
      simp only [onmessage]
      split
      · rfl
      · rename_i hc
        exfalso
        simp only [List.length_append, List.length_cons, List.length_nil] at hc
        omega
    exact ⟨heq, by rw [heq]; exact flushNow_st_q now ok _⟩
  · intro h
    simp only [onmessage]
    split
    · rename_i hc
      exfalso
      simp only [List.length_append, List.length_cons, List.length_nil] at hc
      omega
    · rw [schedule_eq]
  · intro harm hne
    have hq : ({ s with timerArmed := false } : WState).q ≠ [] := hne
    simp [wstep, harm, hq]

/-- Witness for C9 at three concrete states: a batch-size-1 worker drains
on the first entry; the default worker arms its timer instead; an armed
timer over a nonempty buffer drains it. -/
theorem batch_size_and_timer_triggers_witness :
    (onmessage 0 true { initWState with BATCH := 1 }
        (WMsg.entry { t := 0, level := "info", msg := "x", meta := none })
      = flushNow 0 true
          { { initWState with BATCH := 1 } with
              q := ({ initWState with BATCH := 1 } : WState).q
                ++ [{ t := 0, level := "info", msg := "x", meta := none }] }) ∧
    (onmessage 0 true initWState
        (WMsg.entry { t := 0, level := "info", msg := "x", meta := none })
      = ⟨{ initWState with
            q := initWState.q ++ [{ t := 0, level := "info", msg := "x", meta := none }]
            timerArmed := true }, [], []⟩) ∧
    (wstep { wEx with timerArmed := true } (WEvent.timerFire 0 true)
      = flushNow 0 true { { wEx with timerArmed := true } with timerArmed := false }) :=
  ⟨((batch_size_and_timer_triggers 0 true { initWState with BATCH := 1 }
       { t := 0, level := "info", msg := "x", meta := none }).1 (by decide)).1,
   (batch_size_and_timer_triggers 0 true initWState
       { t := 0, level := "info", msg := "x", meta := none }).2.1 (by decide),
   (batch_size_and_timer_triggers 0 true { wEx with timerArmed := true }
       { t := 0, level := "info", msg := "x", meta := none }).2.2 rfl (by decide)⟩

/-- Counterexample to claim C10 as stated: on a fresh default logger the
first `close()` completes (its flush acknowledgement arrives, then the
worker is terminated), but the second `close()` does not complete — the
claim's assertion that the second call completes is false on the code. -/
theorem close_twice_counterexample :
    c10first.2 = true ∧ c10second.2 = false := by
  decide

/-- Claim C10 (amended): `close()` flushes and then terminates the worker;
a second `close()` raises no error and never reaches a second
`worker.terminate()` — it leaves the system exactly as the first close left
it — but it never completes, because its `__flush` request is discarded by
the terminated worker and the acknowledgement for its token is never
sent. -/
theorem close_idempotent_but_second_never_completes :
    c10first.2 = true ∧
    c10first.1.alive = false ∧
    c10first.1.terminations = 1 ∧
    c10second.1 = c10first.1 ∧
    c10second.1.terminations = 1 ∧
    c10second.2 = false ∧
    ¬ WOut.flushed 2 ∈ c10second.1.outs := by
  decide

end BunLogs
